import Mathlib

set_option maxRecDepth 100000

/-!
Shallow embedding of `src/scripts/check-db.js`: a pre-deployment database
readiness check.  The script validates two environment variables, then for
each of them connects to the database, gates on the reported version,
detects legacy (v1) migrations, and shells out to an external migration
command.  External collaborators (the Prisma client, the `semver` npm
package, `execSync`) are modelled explicitly below; observable side effects
are recorded as an event trace.
-/

namespace CheckDb

/-! ### Semantic versions (model of the `semver` npm package as used here) -/

/-- A normalized semantic version `major.minor.patch`. -/
structure SemVer where
  major : Nat
  minor : Nat
  patch : Nat
deriving DecidableEq

/-- Numeric value of a list of decimal digit characters. -/
def natOfDigits (ds : List Char) : Nat :=
  ds.foldl (fun n c => 10 * n + (c.toNat - 48)) 0

/-- Reads a leading decimal-digit run; `none` when the list does not start
with a digit. -/
def parseComponent (l : List Char) : Option (Nat × List Char) :=
  let ds := l.takeWhile Char.isDigit
  if ds.isEmpty then none
  else some (natOfDigits ds, l.dropWhile Char.isDigit)

/-- Modelled from the spec: the external `semver` library's
`semver.valid(semver.coerce(s))` ("Coerces the raw string to a normalized
semantic version"), whose code is not part of this repository.  It scans for
the first digit run (the major), then optionally `.minor` and `.patch`;
missing parts become `0`; a string with no digits coerces to nothing. -/
def coerceAux : List Char → Option SemVer
  | [] => none
  | c :: cs =>
    match parseComponent (c :: cs) with
    | none => coerceAux cs
    | some (maj, r1) =>
      match r1 with
      | '.' :: r2 =>
        match parseComponent r2 with
        | none => some ⟨maj, 0, 0⟩
        | some (min, r3) =>
          match r3 with
          | '.' :: r4 =>
            match parseComponent r4 with
            | none => some ⟨maj, min, 0⟩
            | some (pat, _) => some ⟨maj, min, pat⟩
          | _ => some ⟨maj, min, 0⟩
      | _ => some ⟨maj, 0, 0⟩

/-- Modelled from the spec: `semver.coerce` on a string. -/
def coerce (s : String) : Option SemVer :=
  coerceAux s.data

/-- Modelled from the spec: `semver.lt`, "standard major.minor.patch
ordering" (lexicographic). -/
def semverLt (a b : SemVer) : Bool :=
  if a.major < b.major then true
  else if b.major < a.major then false
  else if a.minor < b.minor then true
  else if b.minor < a.minor then false
  else decide (a.patch < b.patch)

/-- Rendering of a normalized version, as `semver.valid` returns it. -/
def SemVer.toStr (v : SemVer) : String :=
  toString v.major ++ "." ++ toString v.minor ++ "." ++ toString v.patch

/-! ### `getDatabaseType` (check-db.js lines 17-25) -/

/-- `getDatabaseType(url)`: `url.split(':')[0]` is the first element of the
split on `':'`; the scheme `postgres` maps to `postgresql`, anything else is
returned unchanged.  (For the empty string the JS guard `url && ...` also
yields the empty string.) -/
def getDatabaseType (url : String) : String :=
  let type : String := ⟨(url.data.splitOn ':').headD []⟩
  if type = "postgres" then "postgresql" else type

/-- The spec's phrase "the part before the first ':'", written directly. -/
def urlScheme (url : String) : String :=
  ⟨url.data.takeWhile (fun c => c != ':')⟩

/-! ### Observable events and external database behavior -/

/-- Observable side effects of a run, in order: connection attempts, the two
raw queries, the external migration command, disconnection.  Each is tagged
with the label (environment-variable name) of the data source being
checked. -/
inductive Event where
  | connect (label : String)
  | queryVersion (label : String)
  | queryMigrations (label : String)
  | exec (label : String) (cmd : String)
  | disconnect (label : String)
deriving DecidableEq

/-- Behavior of the external database (and migration tool) reached through a
given connection URL: whether `$connect` succeeds (and its error message if
not), the string returned by `SELECT version()`, the number of rows returned
by the legacy-migrations query, and whether `execSync` of the migration
command succeeds. -/
structure DbBehavior where
  connectOk : Bool
  connectErrMsg : String
  versionString : String
  legacyCount : Nat
  migrateOk : Bool
  migrateErrMsg : String

/-! ### The version gate (check-db.js lines 69-86) -/

/-- Lines 69-86 of `performChecks`: coerce the raw version string, pick the
family-specific minimum (`postgresql` → `'9.4.0'`, otherwise `'5.7.0'`),
fail when coercion yields nothing or when `semver.lt(version, minVersion)`;
on success return the normalized version (used in the success log line). -/
def versionGate (dbUrl versionString label : String) : Except String String :=
  let version := coerce versionString
  let databaseType := getDatabaseType dbUrl
  let minVersion : String := if databaseType = "postgresql" then "9.4.0" else "5.7.0"
  match version with
  | none => Except.error ("[" ++ label ++ "] Unable to parse database version.")
  | some v =>
    if semverLt v ((coerce minVersion).getD ⟨0, 0, 0⟩) then
      Except.error ("[" ++ label ++ "] Database version is not compatible. Please upgrade "
        ++ databaseType ++ " to version " ++ minVersion ++ " or greater.")
    else
      Except.ok v.toStr

/-! ### `performChecks` (check-db.js lines 54-107) -/

/-- The `try` block of `performChecks(dbUrl, label)`: connect, version
gate, legacy-migration check, external `npx prisma migrate deploy`.
Returns the outcome together with the trace of observable events. -/
def performChecksBase (db : DbBehavior) (dbUrl label : String) :
    Except String Unit × List Event :=
  if db.connectOk = false then
    (Except.error db.connectErrMsg, [Event.connect label])
  else
    match versionGate dbUrl db.versionString label with
    | Except.error m =>
      (Except.error m, [Event.connect label, Event.queryVersion label])
    | Except.ok _ =>
      if db.legacyCount > 0 then
        (Except.error ("[" ++ label ++ "] Umami v1 tables detected."),
          [Event.connect label, Event.queryVersion label, Event.queryMigrations label])
      else
        if db.migrateOk = false then
          (Except.error db.migrateErrMsg,
            [Event.connect label, Event.queryVersion label, Event.queryMigrations label,
              Event.exec label "npx prisma migrate deploy"])
        else
          (Except.ok (),
            [Event.connect label, Event.queryVersion label, Event.queryMigrations label,
              Event.exec label "npx prisma migrate deploy"])

/-- `performChecks(dbUrl, label)`: the `try` block above, whose `catch`
re-throws every failure with the label prefixed, and whose `finally`
always disconnects. -/
def performChecks (db : DbBehavior) (dbUrl label : String) : Except String Unit × List Event :=
  (match (performChecksBase db dbUrl label).1 with
    | Except.ok u => Except.ok u
    | Except.error m => Except.error ("[" ++ label ++ "] " ++ m),
    (performChecksBase db dbUrl label).2 ++ [Event.disconnect label])

/-! ### Environment validation (check-db.js lines 9, 37-51) -/

/-- The fixed, declared-order list of required variables (line 9). -/
def DATABASE_URLS : List String := ["DATABASE_URL", "DIRECT_DATABASE_URL"]

/-- JavaScript truthiness of an environment variable's value: set and
non-empty. -/
def jsTruthy : Option String → Bool
  | none => false
  | some s => s != ""

/-- The variables `checkEnv` reports as "not defined": those whose value is
falsy (`!process.env[envVar]`), in declared order. -/
def checkEnvReport (env : String → Option String) : List String :=
  DATABASE_URLS.filter (fun v => !jsTruthy (env v))

/-- `checkEnv()`: succeeds exactly when every required variable is defined,
otherwise throws after reporting each missing one. -/
def checkEnv (env : String → Option String) : Except String Unit :=
  if checkEnvReport env = [] then Except.ok ()
  else Except.error "One or more required database environment variables are missing."

/-! ### The main IIFE (check-db.js lines 11-14 and 109-127) -/

/-- Outcome of a whole run: the process exit code, whether environment
validation ran, the event trace, and the error message printed by the outer
`catch` (if any). -/
structure RunResult where
  exitCode : Nat
  envChecked : Bool
  trace : List Event
  errMsg : Option String
deriving DecidableEq

/-- The `for (const envVar of DATABASE_URLS)` loop: check each data source
in order, stopping at (and propagating) the first failure. -/
def runChecksList (envVars : List String) (env : String → Option String)
    (dbFor : String → DbBehavior) : Except String Unit × List Event :=
  match envVars with
  | [] => (Except.ok (), [])
  | envVar :: rest =>
    let dbUrl := (env envVar).getD ""
    let p := performChecks (dbFor dbUrl) dbUrl envVar
    match p.1 with
    | Except.error m => (Except.error m, p.2)
    | Except.ok _ =>
      let q := runChecksList rest env dbFor
      (q.1, p.2 ++ q.2)

/-- The whole script: the `SKIP_DB_CHECK` guard (lines 11-14) exits 0 before
anything else runs; then the main IIFE runs `checkEnv` and the per-source
loop, exiting 0 on success and 1 on the first caught error. -/
def mainRun (skip : Option String) (env : String → Option String)
    (dbFor : String → DbBehavior) : RunResult :=
  if jsTruthy skip then ⟨0, false, [], none⟩
  else
    match checkEnv env with
    | Except.error m => ⟨1, true, [], some m⟩
    | Except.ok _ =>
      let r := runChecksList DATABASE_URLS env dbFor
      match r.1 with
      | Except.ok _ => ⟨0, true, r.2, none⟩
      | Except.error m => ⟨1, true, r.2, some m⟩

/-! ### Concrete data used in end-to-end scenarios -/

/-- A database that passes every check. -/
def goodDb : DbBehavior :=
  ⟨true, "", "PostgreSQL 9.4.0 on x86_64-pc-linux-gnu", 0, true, ""⟩

/-- A database whose reported version is below the postgresql minimum. -/
def oldVersionDb : DbBehavior :=
  ⟨true, "", "PostgreSQL 8.0.0 on x86_64-pc-linux-gnu", 0, true, ""⟩

/-- An environment defining both required variables with distinct URLs. -/
def envTwo : String → Option String := fun v =>
  if v = "DATABASE_URL" then some "postgres://one"
  else if v = "DIRECT_DATABASE_URL" then some "postgres://two"
  else none

/-- Database behaviors for `envTwo`: the first data source passes all
checks, the second fails the version gate. -/
def dbForTwo : String → DbBehavior := fun url =>
  if url = "postgres://one" then goodDb else oldVersionDb

/-! ### Helper lemmas -/

/-- The first piece of a character-split is the prefix before the first
separator. -/
theorem splitOn_headD (sep : Char) (l : List Char) :
    (l.splitOn sep).headD [] = l.takeWhile (fun c => c != sep) := by
  induction l with
  | nil => rfl
  | cons c cs ih =>
    show ((c :: cs).splitOnP (· == sep)).headD [] = _
    rw [List.splitOnP_cons]
    by_cases h : c = sep
    · simp [h]
    · obtain ⟨a, as, he⟩ := List.exists_cons_of_ne_nil (List.splitOnP_ne_nil (· == sep) cs)
      have ih' : a = cs.takeWhile (fun c => c != sep) := by
        have := ih
        rw [show cs.splitOn sep = cs.splitOnP (· == sep) from rfl, he] at this
        simpa using this
      rw [he, if_neg (by simp [h]), List.modifyHead_cons, List.takeWhile_cons]
      simp [h, ih']

/-- Every command executed during the `try` block is the literal migration
command. -/
theorem exec_mem_performChecksBase (db : DbBehavior) (dbUrl label l c : String)
    (h : Event.exec l c ∈ (performChecksBase db dbUrl label).2) :
    c = "npx prisma migrate deploy" := by
  unfold performChecksBase at h
  rcases hco : db.connectOk with _ | _
  · simp [hco] at h
  · simp only [hco] at h
    rcases hvg : versionGate dbUrl db.versionString label with m | s
    · simp [hvg] at h
    · simp only [hvg] at h
      by_cases hl : db.legacyCount > 0
      · rw [if_pos hl] at h
        simp at h
      · rw [if_neg hl] at h
        rcases hm : db.migrateOk with _ | _ <;> simp [hm] at h <;> exact h.2

/-- Every command executed during `performChecks` is the literal migration
command. -/
theorem exec_mem_performChecks (db : DbBehavior) (dbUrl label l c : String)
    (h : Event.exec l c ∈ (performChecks db dbUrl label).2) :
    c = "npx prisma migrate deploy" := by
  unfold performChecks at h
  simp only [List.mem_append, List.mem_singleton] at h
  rcases h with h | h
  · exact exec_mem_performChecksBase db dbUrl label l c h
  · exact absurd h (by simp)

/-- Every command executed during the per-source loop is the literal
migration command. -/
theorem exec_mem_runChecksList (envVars : List String) (env : String → Option String)
    (dbFor : String → DbBehavior) (l c : String)
    (h : Event.exec l c ∈ (runChecksList envVars env dbFor).2) :
    c = "npx prisma migrate deploy" := by
  induction envVars with
  | nil => simp [runChecksList] at h
  | cons v rest ih =>
    simp only [runChecksList] at h
    rcases hp : (performChecks (dbFor ((env v).getD "")) ((env v).getD "") v).1 with m | u <;>
      rw [hp] at h <;> simp only [List.mem_append] at h
    · exact exec_mem_performChecks _ _ _ _ _ h
    · rcases h with h | h
      · exact exec_mem_performChecks _ _ _ _ _ h
      · exact ih h

/-! ### Claims -/

/-- C5: if the skip variable is set to a truthy value the process exits
with code 0 immediately, with no environment validation performed and no
database connection attempted (empty trace). -/
theorem C5_skip (skip : Option String) (env : String → Option String)
    (dbFor : String → DbBehavior) (h : jsTruthy skip = true) :
    mainRun skip env dbFor = ⟨0, false, [], none⟩ := by
  simp [mainRun, h]

/-- Witness for C5 at a concrete environment. -/
theorem C5_skip_witness :
    mainRun (some "1") (fun _ => none) (fun _ => goodDb) = ⟨0, false, [], none⟩ :=
  C5_skip (some "1") (fun _ => none) (fun _ => goodDb) (by decide)

/-- C6: `getDatabaseType` maps any URL whose scheme (the part before the
first ':') is `postgres` to `postgresql` and returns every other scheme
unchanged; in particular a postgres URL yields `postgresql` and a mysql URL
yields `mysql`. -/
theorem C6_getDatabaseType :
    (∀ url : String,
      getDatabaseType url =
        if urlScheme url = "postgres" then "postgresql" else urlScheme url)
    ∧ getDatabaseType "postgres://u@h/db" = "postgresql"
    ∧ getDatabaseType "mysql://u@h/db" = "mysql" := by
  refine ⟨?_, by decide, by decide⟩
  intro url
  show (if (⟨(url.data.splitOn ':').headD []⟩ : String) = "postgres" then "postgresql"
      else (⟨(url.data.splitOn ':').headD []⟩ : String)) = _
  rw [splitOn_headD]
  rfl

/-- C7: a raw version string from which no semantic version can be
extracted (such as the empty string) always makes the version gate fail
with the unparseable-version error, never pass. -/
theorem C7_unparseable :
    coerce "" = none
    ∧ (∀ dbUrl vs label : String, coerce vs = none →
        versionGate dbUrl vs label =
          Except.error ("[" ++ label ++ "] Unable to parse database version.")) := by
  refine ⟨rfl, ?_⟩
  intro dbUrl vs label h
  unfold versionGate
  rw [h]

/-- Witness for C7 at the empty version string. -/
theorem C7_unparseable_witness :
    versionGate "mysql://h" "" "DATABASE_URL" =
      Except.error ("[" ++ "DATABASE_URL" ++ "] Unable to parse database version.") :=
  C7_unparseable.2 "mysql://h" "" "DATABASE_URL" (by decide)

/-- C1: for any data source whose version string coerces to `v`, the
version gate fails exactly when `v` is below the family minimum (9.4.0 for
the postgresql family, 5.7.0 otherwise) in major.minor.patch order; in
particular 8.0.0 fails and 9.4.0 passes against the postgresql minimum,
and 5.6.9 fails against the non-postgresql minimum. -/
theorem C1_version_gate :
    (∀ dbUrl vs label : String, ∀ v : SemVer, coerce vs = some v →
      ((∃ m, versionGate dbUrl vs label = Except.error m) ↔
        semverLt v (if getDatabaseType dbUrl = "postgresql"
          then ⟨9, 4, 0⟩ else ⟨5, 7, 0⟩) = true))
    ∧ (∃ m, versionGate "postgres://h" "8.0.0" "L" = Except.error m)
    ∧ (∃ s, versionGate "postgres://h" "9.4.0" "L" = Except.ok s)
    ∧ (∃ m, versionGate "mysql://h" "5.6.9" "L" = Except.error m) := by
  refine ⟨?_, ⟨_, rfl⟩, ⟨_, rfl⟩, ⟨_, rfl⟩⟩
  intro dbUrl vs label v hv
  simp only [versionGate, hv]
  by_cases hfam : getDatabaseType dbUrl = "postgresql"
  · simp only [if_pos hfam]
    have hmin : (coerce "9.4.0").getD ⟨0, 0, 0⟩ = (⟨9, 4, 0⟩ : SemVer) := by decide
    rw [hmin]
    by_cases hlt : semverLt v ⟨9, 4, 0⟩ = true
    · simp [hlt]
    · simp [hlt]
  · simp only [if_neg hfam]
    have hmin : (coerce "5.7.0").getD ⟨0, 0, 0⟩ = (⟨5, 7, 0⟩ : SemVer) := by decide
    rw [hmin]
    by_cases hlt : semverLt v ⟨5, 7, 0⟩ = true
    · simp [hlt]
    · simp [hlt]

/-- Witness for C1 at a concrete passing postgresql data source. -/
theorem C1_version_gate_witness :
    (∃ m, versionGate "postgres://h" "PostgreSQL 9.6.2" "L2" = Except.error m) ↔
      semverLt ⟨9, 6, 2⟩ (if getDatabaseType "postgres://h" = "postgresql"
        then ⟨9, 4, 0⟩ else ⟨5, 7, 0⟩) = true :=
  C1_version_gate.1 "postgres://h" "PostgreSQL 9.6.2" "L2" ⟨9, 6, 2⟩ (by decide)

/-- Appending strings appends their character data. -/
theorem strData_append (s t : String) : (s ++ t).data = s.data ++ t.data := rfl

/-- C8 as stated is false: the incompatibility error at version 8.0.2 on a
postgresql data source does not carry the actual reported version
(`8.0.2` is not a substring of the message). -/
theorem C8_counterexample :
    versionGate "postgres://h" "8.0.2" "DATABASE_URL" =
      Except.error ("[DATABASE_URL] Database version is not compatible. " ++
        "Please upgrade postgresql to version 9.4.0 or greater.")
    ∧ ¬ ("8.0.2".data <:+:
        ("[DATABASE_URL] Database version is not compatible. " ++
          "Please upgrade postgresql to version 9.4.0 or greater.").data) := by
  constructor
  · rfl
  · decide

/-- C8 (amended): whenever the version gate fails because the normalized
version is below the family minimum, the error message carries the
database family and the minimum required version (but not the actual
reported version). -/
theorem C8_incompatible_error_content (dbUrl vs label : String) (v : SemVer)
    (hv : coerce vs = some v)
    (hlt : semverLt v ((coerce (if getDatabaseType dbUrl = "postgresql"
        then "9.4.0" else "5.7.0")).getD ⟨0, 0, 0⟩) = true) :
    ∃ m, versionGate dbUrl vs label = Except.error m ∧
      (getDatabaseType dbUrl).data <:+: m.data ∧
      (if getDatabaseType dbUrl = "postgresql"
        then "9.4.0" else "5.7.0").data <:+: m.data := by
  refine ⟨"[" ++ label ++ "] Database version is not compatible. Please upgrade "
      ++ getDatabaseType dbUrl ++ " to version "
      ++ (if getDatabaseType dbUrl = "postgresql" then "9.4.0" else "5.7.0")
      ++ " or greater.", ?_, ?_, ?_⟩
  · simp only [versionGate, hv]
    rw [if_pos hlt]
  · have hm : ("[" ++ label ++ "] Database version is not compatible. Please upgrade "
        ++ getDatabaseType dbUrl ++ " to version "
        ++ (if getDatabaseType dbUrl = "postgresql" then "9.4.0" else "5.7.0")
        ++ " or greater.").data =
        ("[" ++ label ++ "] Database version is not compatible. Please upgrade ").data
          ++ (getDatabaseType dbUrl).data
          ++ (" to version "
            ++ (if getDatabaseType dbUrl = "postgresql" then "9.4.0" else "5.7.0")
            ++ " or greater.").data := by
      simp [strData_append, List.append_assoc]
    rw [hm]
    exact List.infix_append _ _ _
  · have hm : ("[" ++ label ++ "] Database version is not compatible. Please upgrade "
        ++ getDatabaseType dbUrl ++ " to version "
        ++ (if getDatabaseType dbUrl = "postgresql" then "9.4.0" else "5.7.0")
        ++ " or greater.").data =
        ("[" ++ label ++ "] Database version is not compatible. Please upgrade "
            ++ getDatabaseType dbUrl ++ " to version ").data
          ++ (if getDatabaseType dbUrl = "postgresql"
            then "9.4.0" else "5.7.0").data
          ++ (" or greater.").data := by
      simp [strData_append, List.append_assoc]
    rw [hm]
    exact List.infix_append _ _ _

/-- Witness for the amended C8 at a failing postgresql data source. -/
theorem C8_incompatible_error_content_witness :
    ∃ m, versionGate "postgres://h" "8.0.0" "L" = Except.error m ∧
      (getDatabaseType "postgres://h").data <:+: m.data ∧
      (if getDatabaseType "postgres://h" = "postgresql"
        then "9.4.0" else "5.7.0").data <:+: m.data :=
  C8_incompatible_error_content "postgres://h" "8.0.0" "L" ⟨8, 0, 0⟩ (by decide) (by decide)

/-- A database carrying rows in the legacy-migrations query result. -/
def legacyDb : DbBehavior :=
  ⟨true, "", "PostgreSQL 9.4.0 on x86_64-pc-linux-gnu", 3, true, ""⟩

/-- C3: a non-empty legacy-migrations result set makes the data source's
check fail and the migration command is never executed for it. -/
theorem C3_legacy_fatal (db : DbBehavior) (dbUrl label : String)
    (h : db.legacyCount > 0) :
    (∃ m, (performChecks db dbUrl label).1 = Except.error m) ∧
    ∀ c, Event.exec label c ∉ (performChecks db dbUrl label).2 := by
  have hbase : (∃ m, (performChecksBase db dbUrl label).1 = Except.error m) ∧
      ∀ c, Event.exec label c ∉ (performChecksBase db dbUrl label).2 := by
    unfold performChecksBase
    rcases hco : db.connectOk with _ | _
    · simp
    · simp only [Bool.true_eq_false, if_false]
      rcases hvg : versionGate dbUrl db.versionString label with m | s
      · simp
      · rw [if_pos h]
        simp
  obtain ⟨⟨m, hm⟩, hnx⟩ := hbase
  constructor
  · exact ⟨"[" ++ label ++ "] " ++ m, by simp [performChecks, hm]⟩
  · intro c hc
    unfold performChecks at hc
    simp only [List.mem_append, List.mem_singleton] at hc
    rcases hc with hc | hc
    · exact hnx c hc
    · simp at hc

/-- Witness for C3 at a concrete data source with three legacy rows. -/
theorem C3_legacy_fatal_witness :
    (∃ m, (performChecks legacyDb "postgres://h" "DATABASE_URL").1 = Except.error m) ∧
    ∀ c, Event.exec "DATABASE_URL" c ∉ (performChecks legacyDb "postgres://h" "DATABASE_URL").2 :=
  C3_legacy_fatal legacyDb "postgres://h" "DATABASE_URL" (by decide)

/-- C9: every check of a data source releases its connection as its last
observable action (the trace ends with that data source's disconnect, on
success and on failure alike), and the per-source loop places the whole
trace of a data source before any event of the next one. -/
theorem C9_connection_release :
    (∀ (db : DbBehavior) (dbUrl label : String),
      ∃ t, (performChecks db dbUrl label).2 = t ++ [Event.disconnect label])
    ∧ (∀ (env : String → Option String) (dbFor : String → DbBehavior)
        (v : String) (rest : List String),
      (runChecksList (v :: rest) env dbFor).2 =
          (performChecks (dbFor ((env v).getD "")) ((env v).getD "") v).2
        ∨ (runChecksList (v :: rest) env dbFor).2 =
          (performChecks (dbFor ((env v).getD "")) ((env v).getD "") v).2
            ++ (runChecksList rest env dbFor).2) := by
  constructor
  · intro db dbUrl label
    exact ⟨(performChecksBase db dbUrl label).2, rfl⟩
  · intro env dbFor v rest
    simp only [runChecksList]
    rcases (performChecks (dbFor ((env v).getD "")) ((env v).getD "") v).1 with m | u
    · left; rfl
    · right; rfl

/-- C10: the external command executed by any data source's check is the
constant `npx prisma migrate deploy`, independent of URL and label, so any
two data sources execute the identical command. -/
theorem C10_exec_constant :
    (∀ (db : DbBehavior) (dbUrl label l c : String),
      Event.exec l c ∈ (performChecks db dbUrl label).2 →
        c = "npx prisma migrate deploy")
    ∧ (∀ (skip : Option String) (env : String → Option String)
        (dbFor : String → DbBehavior) (l c : String),
      Event.exec l c ∈ (mainRun skip env dbFor).trace →
        c = "npx prisma migrate deploy")
    ∧ (∀ (db₁ db₂ : DbBehavior) (u₁ u₂ la₁ la₂ l₁ l₂ c₁ c₂ : String),
      Event.exec l₁ c₁ ∈ (performChecks db₁ u₁ la₁).2 →
      Event.exec l₂ c₂ ∈ (performChecks db₂ u₂ la₂).2 → c₁ = c₂) := by
  refine ⟨exec_mem_performChecks, ?_, ?_⟩
  · intro skip env dbFor l c h
    simp only [mainRun] at h
    by_cases hs : jsTruthy skip = true
    · rw [if_pos hs] at h
      simp at h
    · rw [if_neg hs] at h
      rcases hce : checkEnv env with m | u <;> rw [hce] at h
      · simp at h
      · rcases hr : (runChecksList DATABASE_URLS env dbFor).1 with m | u2 <;> rw [hr] at h <;>
          exact exec_mem_runChecksList _ _ _ _ _ h
  · intro db₁ db₂ u₁ u₂ la₁ la₂ l₁ l₂ c₁ c₂ h₁ h₂
    rw [exec_mem_performChecks _ _ _ _ _ h₁, exec_mem_performChecks _ _ _ _ _ h₂]

/-- Witness for C10 at a passing data source whose trace executes the
migration command. -/
theorem C10_exec_constant_witness :
    "npx prisma migrate deploy" = "npx prisma migrate deploy" :=
  C10_exec_constant.1 goodDb "postgres://h" "DATABASE_URL" "DATABASE_URL"
    "npx prisma migrate deploy" (by decide)

/-- C4: the environment validator reports exactly the subset of required
variables that is missing (unset or empty), succeeds exactly when that
subset is empty, and a non-empty subset makes the run exit 1 with no
database connection attempted (empty trace). -/
theorem C4_checkEnv :
    (∀ (env : String → Option String) (v : String),
      v ∈ checkEnvReport env ↔ v ∈ DATABASE_URLS ∧ jsTruthy (env v) = false)
    ∧ (∀ env, checkEnv env = Except.ok () ↔ checkEnvReport env = [])
    ∧ (∀ (skip : Option String) (env : String → Option String)
        (dbFor : String → DbBehavior),
      jsTruthy skip = false → checkEnvReport env ≠ [] →
      (mainRun skip env dbFor).exitCode = 1 ∧ (mainRun skip env dbFor).trace = []) := by
  refine ⟨?_, ?_, ?_⟩
  · intro env v
    simp [checkEnvReport, List.mem_filter]
  · intro env
    unfold checkEnv
    by_cases h : checkEnvReport env = []
    · simp [h]
    · simp [h]
  · intro skip env dbFor hs hne
    have hce : checkEnv env =
        Except.error "One or more required database environment variables are missing." := by
      unfold checkEnv
      rw [if_neg hne]
    constructor <;> simp [mainRun, hs, hce]

/-- Witness for C4 with both required variables unset. -/
theorem C4_checkEnv_witness :
    (mainRun none (fun _ => none) (fun _ => goodDb)).exitCode = 1 ∧
    (mainRun none (fun _ => none) (fun _ => goodDb)).trace = [] :=
  C4_checkEnv.2.2 none (fun _ => none) (fun _ => goodDb) (by decide) (by decide)

/-- C2: the per-source loop checks data sources in declared order and the
first failure is propagated unchanged (with the failing source's trace
only), every propagated failure is prefixed with the data source's label,
a non-skipped run exits 0 exactly when environment validation and every
data source's checks pass, and in the concrete two-source scenario where
the first source passes and the second fails the version gate the exit
code is 1, no migration command is executed for the second source, and the
reported error is labeled with the second source's name. -/
theorem C2_orchestrator :
    (∀ (env : String → Option String) (dbFor : String → DbBehavior) (v : String)
        (rest : List String) (m : String),
      (performChecks (dbFor ((env v).getD "")) ((env v).getD "") v).1 = Except.error m →
      runChecksList (v :: rest) env dbFor =
        (Except.error m, (performChecks (dbFor ((env v).getD "")) ((env v).getD "") v).2))
    ∧ (∀ (db : DbBehavior) (dbUrl label m : String),
      (performChecks db dbUrl label).1 = Except.error m →
      ∃ r, m = "[" ++ label ++ "] " ++ r)
    ∧ (∀ (skip : Option String) (env : String → Option String)
        (dbFor : String → DbBehavior),
      jsTruthy skip = false →
      ((mainRun skip env dbFor).exitCode = 0 ↔
        checkEnv env = Except.ok () ∧
          (runChecksList DATABASE_URLS env dbFor).1 = Except.ok ()))
    ∧ (mainRun none envTwo dbForTwo).exitCode = 1
    ∧ (∀ c, Event.exec "DIRECT_DATABASE_URL" c ∉ (mainRun none envTwo dbForTwo).trace)
    ∧ (∃ r, (mainRun none envTwo dbForTwo).errMsg =
        some ("[" ++ "DIRECT_DATABASE_URL" ++ "] " ++ r)) := by
  refine ⟨?_, ?_, ?_, by decide, ?_, ?_⟩
  · intro env dbFor v rest m h
    simp only [runChecksList]
    rw [h]
  · intro db dbUrl label m h
    unfold performChecks at h
    rcases hb : (performChecksBase db dbUrl label).1 with m0 | u <;> rw [hb] at h <;>
      simp at h
    exact ⟨m0, h.symm⟩
  · intro skip env dbFor hs
    rcases hce : checkEnv env with m | ⟨⟩
    · simp [mainRun, hs, hce]
    · rcases hr : (runChecksList DATABASE_URLS env dbFor).1 with m | ⟨⟩
      · simp [mainRun, hs, hce, hr]
      · simp [mainRun, hs, hce, hr]
  · have ht : (mainRun none envTwo dbForTwo).trace =
        [Event.connect "DATABASE_URL", Event.queryVersion "DATABASE_URL",
          Event.queryMigrations "DATABASE_URL",
          Event.exec "DATABASE_URL" "npx prisma migrate deploy",
          Event.disconnect "DATABASE_URL", Event.connect "DIRECT_DATABASE_URL",
          Event.queryVersion "DIRECT_DATABASE_URL",
          Event.disconnect "DIRECT_DATABASE_URL"] := by decide
    intro c hc
    rw [ht] at hc
    simp at hc
  · exact ⟨"[DIRECT_DATABASE_URL] Database version is not compatible. " ++
      "Please upgrade postgresql to version 9.4.0 or greater.", by decide⟩

/-- Witness for C2's exit-code characterization at the concrete two-source
scenario. -/
theorem C2_orchestrator_witness :
    (mainRun none envTwo dbForTwo).exitCode = 0 ↔
      checkEnv envTwo = Except.ok () ∧
        (runChecksList DATABASE_URLS envTwo dbForTwo).1 = Except.ok () :=
  C2_orchestrator.2.2.1 none envTwo dbForTwo (by decide)

end CheckDb
